import Mathlib

/-!
Verification of the EchoPilot / Codessa AI Workbench VS Code extension
against its natural-language specification.

The definitions below are a shallow embedding of the TypeScript source:
  - `src/src/api/apiClient.ts` (CodessaApiClient: configuration refresh,
    synchronous chat, the SSE streaming reader);
  - `src/src/policy/diagnosticsProvider.ts` (PolicyDiagnosticsProvider:
    per-document policy checks and the cancellable bulk scan).

Conventions: the axios client defaults are modelled as an association list
of headers plus an optional base URL; JSON messages pushed over the SSE
connection are modelled after parsing (a message that fails JSON.parse is
the `invalid` constructor, a JSON object whose `type` field is none of
content/action/done is `other`); promise settlement is an
`Option (Except String ChatResponse)` field (`none` = pending, at most one
settlement, as for a JS promise).
-/

namespace EchoPilot

/-- An action payload pushed by the backend.  The client treats it as
opaque (`any` in the source): it is appended verbatim and forwarded
verbatim, so we model it as an opaque token. -/
structure Action where
  payload : String
deriving DecidableEq, Repr

/-- `ChatRequest.context` from `apiClient.ts`. -/
structure ChatContext where
  workspaceRoot : Option String := none
  activeFile : Option String := none
  selectedText : Option String := none
  openFiles : Option (List String) := none
deriving DecidableEq, Repr

/-- `ChatRequest` from `apiClient.ts`. -/
structure ChatRequest where
  message : String
  context : Option ChatContext := none
  stream : Option Bool := none
deriving DecidableEq, Repr

/-- `ChatResponse` from `apiClient.ts`: accumulated content plus the
list of actions. -/
structure ChatResponse where
  content : String
  actions : List Action := []
deriving DecidableEq, Repr

/-- `CodessaConfig` from `apiClient.ts`. -/
structure CodessaConfig where
  apiEndpoint : String
  apiKey : String
  streamResponses : Bool
deriving DecidableEq, Repr

/-- The externally-owned settings read by
`vscode.workspace.getConfiguration('codessa')`: `none` models an unset
setting, for which `get` returns the documented default. -/
structure WorkspaceSettings where
  apiEndpoint : Option String := none
  apiKey : Option String := none
  streamResponses : Option Bool := none
deriving DecidableEq, Repr

/-- The body of `updateConfiguration` that re-reads the settings:
`vscodeConfig.get(key, default)`. -/
def readConfig (s : WorkspaceSettings) : CodessaConfig where
  apiEndpoint := s.apiEndpoint.getD "https://api.codessa.dev"
  apiKey := s.apiKey.getD ""
  streamResponses := s.streamResponses.getD true

/-- Header dictionary assignment
(`client.defaults.headers.common[k] = v`): replaces the value when the
key is present, otherwise appends the entry. -/
def setHeader (hs : List (String × String)) (k v : String) :
    List (String × String) :=
  if hs.any (fun p => p.1 = k) then
    hs.map (fun p => if p.1 = k then (k, v) else p)
  else hs ++ [(k, v)]

/-- Header dictionary lookup: `some` iff the header entry is present
(an empty-string value is a present entry, distinct from absence). -/
def getHeader (hs : List (String × String)) (k : String) : Option String :=
  (hs.find? (fun p => p.1 = k)).map (fun p => p.2)

/-- The mutable defaults of the shared axios instance. -/
structure ClientDefaults where
  baseURL : Option String := none
  timeoutMs : Nat := 30000
  headers : List (String × String) := []
deriving DecidableEq, Repr

/-- The state of a `CodessaApiClient`: `client = none` models the window
inside the constructor before `axios.create` has run (the guard
`if (this.client)` in `updateConfiguration`). -/
structure ClientState where
  client : Option ClientDefaults
  config : CodessaConfig
deriving DecidableEq, Repr

/-- `updateConfiguration()` from `apiClient.ts`: re-reads the settings,
replaces `this.config` wholesale, and — only when the axios client
already exists — applies the base URL and the Authorization header to the
shared defaults.  An empty `apiKey` is falsy in the source, so the header
is assigned the empty string (the key stays present). -/
def updateConfiguration (s : WorkspaceSettings) (st : ClientState) :
    ClientState :=
  let cfg := readConfig s
  let client := match st.client with
    | none => none
    | some c => some { c with
        baseURL := some cfg.apiEndpoint
        headers := setHeader c.headers "Authorization"
          (if cfg.apiKey = "" then "" else "Bearer " ++ cfg.apiKey) }
  { client := client, config := cfg }

/-- The defaults passed to `axios.create` in the constructor: a timeout
and two fixed headers, no base URL, no Authorization. -/
def initialClient : ClientDefaults where
  baseURL := none
  timeoutMs := 30000
  headers := [("Content-Type", "application/json"),
              ("User-Agent", "VSCode-Codessa-Extension/0.1.0")]

/-- The placeholder for `this.config` before its definite assignment
inside `updateConfiguration` (the `config!` declaration); it is
overwritten before any read. -/
def uninitConfig : CodessaConfig where
  apiEndpoint := ""
  apiKey := ""
  streamResponses := false

/-- The `CodessaApiClient` constructor: it calls `updateConfiguration()`
first (while `this.client` is still undefined) and only then runs
`axios.create`, so the configured endpoint and credential are never
applied to the fresh client defaults. -/
def constructClient (s : WorkspaceSettings) : ClientState :=
  let st := updateConfiguration s { client := none, config := uninitConfig }
  { st with client := some initialClient }

/-! ### Synchronous chat path -/

/-- Which branch `sendChatMessage` takes. -/
inductive ChatMode where
  | streaming
  | sync
deriving DecidableEq, Repr

/-- The dispatch in `sendChatMessage`:
`if (this.config.streamResponses && onChunk)`. -/
def sendChatMessageMode (cfg : CodessaConfig) (onChunkSupplied : Bool) :
    ChatMode :=
  if cfg.streamResponses && onChunkSupplied then .streaming else .sync

/-- `sendChatMessageSync`: posts `{...request, stream: false}` to
`/chat` and returns `response.data` unchanged, wrapping a transport
failure in a method-specific message.  The backend is a function from
the posted body to the parsed response; the first component of the
result records the bodies posted to `/chat` (exactly one). -/
def sendChatMessageSync
    (backend : ChatRequest → Except String ChatResponse)
    (r : ChatRequest) : List ChatRequest × Except String ChatResponse :=
  let body : ChatRequest := { r with stream := some false }
  match backend body with
  | .ok resp => ([body], .ok resp)
  | .error e => ([body], .error ("Failed to send chat message: " ++ e))

/-! ### Streaming reader -/

/-- A server-pushed SSE message after the `JSON.parse` at the top of the
`onmessage` handler.  `invalid` is a message whose data is not valid
JSON (`JSON.parse` throws, caught and logged); `other` is valid JSON
whose `type` discriminator is none of content/action/done (falls through
every branch of the if/else chain). -/
inductive StreamEvent where
  | content (s : String)
  | action (a : Action)
  | done
  | other (tag : String)
  | invalid (raw : String)
deriving DecidableEq, Repr

/-- The state closed over by one `streamChatMessage` invocation:
the accumulator `fullContent`, the `actions` array, whether
`eventSource.close()` has run, and the settlement of the returned
promise (`none` while pending; a settled promise never changes). -/
structure StreamState where
  fullContent : String
  actions : List Action
  closed : Bool
  result : Option (Except String ChatResponse)
deriving Repr

/-- The state at the top of `streamChatMessage`. -/
def initialStreamState : StreamState where
  fullContent := ""
  actions := []
  closed := false
  result := none

/-- A callback invocation made by the streaming reader, in order. -/
inductive CallbackCall where
  | chunk (s : String)
  | act (a : Action)
deriving DecidableEq, Repr

/-- The `eventSource.onmessage` handler for one message.
`onActionSupplied` records whether the optional `onAction` argument was
passed: the source guards with `data.type === 'action' && onAction`, so
without a callback an action envelope falls through and is dropped.
A closed EventSource delivers no events, hence the `closed` guard.
The returned list is the callback invocations the handler makes. -/
def streamOnMessage (onActionSupplied : Bool) (st : StreamState)
    (ev : StreamEvent) : StreamState × List CallbackCall :=
  if st.closed then (st, [])
  else
    match ev with
    | .content s =>
        ({ st with fullContent := st.fullContent ++ s }, [.chunk s])
    | .action a =>
        if onActionSupplied then
          ({ st with actions := st.actions ++ [a] }, [.act a])
        else (st, [])
    | .done =>
        ({ st with closed := true
                   result := some (.ok { content := st.fullContent
                                         actions := st.actions }) }, [])
    | .other _ => (st, [])
    | .invalid _ => (st, [])

/-- Processing of a finite arrival sequence of messages, accumulating
the callback-invocation trace in arrival order. -/
def processEvents (onActionSupplied : Bool) (st : StreamState) :
    List StreamEvent → StreamState × List CallbackCall
  | [] => (st, [])
  | ev :: rest =>
      let step := streamOnMessage onActionSupplied st ev
      let rec_ := processEvents onActionSupplied step.1 rest
      (rec_.1, step.2 ++ rec_.2)

/-- The `eventSource.onerror` handler: close the connection and reject
with the fixed error.  Rejecting an already-settled promise is a no-op;
a closed EventSource fires no further events. -/
def streamOnError (st : StreamState) : StreamState :=
  if st.closed then st
  else
    { st with closed := true
              result := match st.result with
                | some r => some r
                | none => some (.error "Stream connection failed") }

/-- The `.catch(reject)` on the `POST /chat/stream/init` request: a
failure of the initiate call rejects the pending promise with that
failure.  The handler does not touch the EventSource: `closed` is left
as it was. -/
def streamOnInitFailure (e : String) (st : StreamState) : StreamState :=
  { st with result := match st.result with
      | some r => some r
      | none => some (.error e) }

/-- The headers passed to the `EventSource` constructor in
`streamChatMessage`: the same falsy-key pattern as
`updateConfiguration`, so an empty credential yields an empty-string
Authorization entry, not an absent one. -/
def streamHeaders (cfg : CodessaConfig) : List (String × String) :=
  [("Authorization",
    if cfg.apiKey = "" then "" else "Bearer " ++ cfg.apiKey),
   ("Content-Type", "application/json")]

/-! ### Event-loop model of the streaming reader

The extension host runs a single-threaded event loop.  Each server
message arrival queues one invocation of `eventSource.onmessage`; the
asynchronous work returned by a caller's `onAction` handler completes
via its own later turn of the loop.  The source's `onmessage` is a plain
(non-async) function that calls `onAction(data.action)` and discards the
returned promise, so a message-arrival task queued before the handler's
completion task runs first — the reader never waits.  `runLoop` replays
an arbitrary queue order and records the observable trace. -/

/-- One turn of the event loop: either a server message arrives (and
`onmessage` runs synchronously on it), or the asynchronous work started
by the `idx`-th `onAction` invocation completes. -/
inductive LoopTask where
  | arrival (ev : StreamEvent)
  | handlerDone (idx : Nat)
deriving DecidableEq, Repr

/-- Observable events of a streaming run, in execution order. -/
inductive TraceEvent where
  | chunkCall (s : String)
  | actionStart (idx : Nat) (a : Action)
  | actionEnd (idx : Nat)
  | resolved
deriving DecidableEq, Repr

/-- Loop state: the closure state of `streamChatMessage` plus a counter
numbering `onAction` invocations (for pairing starts with ends). -/
structure LoopState where
  stream : StreamState
  nextActionIdx : Nat
deriving Repr

/-- The initial loop state. -/
def initialLoopState : LoopState where
  stream := initialStreamState
  nextActionIdx := 0

/-- One event-loop turn.  An arrival runs the `onmessage` body exactly
as in the source (with an `onAction` supplied): it starts the action
handler and moves on without awaiting it.  A `handlerDone` turn merely
records that the handler's asynchronous work finished. -/
def loopStep (st : LoopState) : LoopTask → LoopState × List TraceEvent
  | .arrival ev =>
      if st.stream.closed then (st, [])
      else
        match ev with
        | .content s =>
            ({ st with stream := { st.stream with
                 fullContent := st.stream.fullContent ++ s } },
             [.chunkCall s])
        | .action a =>
            ({ st with
                 stream := { st.stream with
                   actions := st.stream.actions ++ [a] }
                 nextActionIdx := st.nextActionIdx + 1 },
             [.actionStart st.nextActionIdx a])
        | .done =>
            ({ st with stream := { st.stream with
                 closed := true
                 result := some (.ok { content := st.stream.fullContent
                                       actions := st.stream.actions }) } },
             [.resolved])
        | .other _ => (st, [])
        | .invalid _ => (st, [])
  | .handlerDone i => (st, [.actionEnd i])

/-- Replay a queue of event-loop turns, collecting the trace. -/
def runLoop (st : LoopState) : List LoopTask → LoopState × List TraceEvent
  | [] => (st, [])
  | t :: rest =>
      let step := loopStep st t
      let rec_ := runLoop step.1 rest
      (rec_.1, step.2 ++ rec_.2)

/-! ### Policy diagnostics provider (`diagnosticsProvider.ts`) -/

/-- `PolicyViolation` from `apiClient.ts` (the `fix` payload is opaque
to the diagnostics mapping we verify and is omitted). -/
structure PolicyViolation where
  rule : String
  severity : String
  message : String
  line : Nat
  column : Nat
  endLine : Option Nat := none
  endColumn : Option Nat := none
deriving DecidableEq, Repr

/-- A `vscode.Diagnostic` as built by `updateDiagnostics`: a zero-based
range, the bracketed message, and a numeric severity. -/
structure Diagnostic where
  startLine : Nat
  startCol : Nat
  endLine : Nat
  endCol : Nat
  message : String
  severity : Nat
deriving DecidableEq, Repr

/-- `mapSeverity` from `diagnosticsProvider.ts`
(`vscode.DiagnosticSeverity`: Error = 0, Warning = 1, Information = 2,
Hint = 3). -/
def mapSeverity (severity : String) : Nat :=
  if severity = "error" then 0
  else if severity = "warning" then 1
  else if severity = "info" then 2
  else 3

/-- The per-violation diagnostic built in `updateDiagnostics`
(1-based violation positions become 0-based; a missing end line falls
back to the start line and a missing end column to `column + 10`). -/
def toDiagnostic (v : PolicyViolation) : Diagnostic where
  startLine := v.line - 1
  startCol := v.column - 1
  endLine := (v.endLine.map (fun e => e - 1)).getD (v.line - 1)
  endCol := (v.endColumn.map (fun e => e - 1)).getD (v.column + 10)
  message := "[" ++ v.rule ++ "] " ++ v.message
  severity := mapSeverity v.severity

/-- The diagnostics collection: file path to the diagnostics set for it
(`diagnosticCollection.set(uri, diagnostics)` replaces the entry). -/
def setDiagnostics (ds : List (String × List Diagnostic)) (uri : String)
    (v : List Diagnostic) : List (String × List Diagnostic) :=
  if ds.any (fun p => p.1 = uri) then
    ds.map (fun p => if p.1 = uri then (uri, v) else p)
  else ds ++ [(uri, v)]

/-- `checkDocumentPolicies`: send the document to `/policy/check` and
set the mapped diagnostics for it; the catch block logs and shows an
error message, leaving the collection unchanged. -/
def checkDocumentPolicies
    (backend : String → Except String (List PolicyViolation))
    (ds : List (String × List Diagnostic)) (file : String) :
    List (String × List Diagnostic) :=
  match backend file with
  | .ok vs => setDiagnostics ds file (vs.map toDiagnostic)
  | .error _ => ds

/-- Outcome of a `checkAllPolicies` run: the diagnostics collection,
the files for which a per-file check was issued (in order), the
`completed` counter, and whether the completion message was shown (it
is suppressed when the token was cancelled). -/
structure ScanResult where
  diags : List (String × List Diagnostic)
  checked : List String
  completed : Nat
  infoShown : Bool
deriving Repr

/-- The `for (const file of files)` loop of `checkAllPolicies`.  The
cancellation token is a time-indexed flag `tok`: `tok i` is the value
`token.isCancellationRequested` reads at the top of the `i`-th
iteration (and, for the exit index, at the final post-loop check).
Returns the collection, the processed files, and the exit index. -/
def checkAllPoliciesLoop
    (backend : String → Except String (List PolicyViolation))
    (tok : Nat → Bool) :
    List String → Nat → List (String × List Diagnostic) →
    List (String × List Diagnostic) × List String × Nat
  | [], i, ds => (ds, [], i)
  | f :: rest, i, ds =>
      if tok i then (ds, [], i)
      else
        let ds1 := checkDocumentPolicies backend ds f
        let r := checkAllPoliciesLoop backend tok rest (i + 1) ds1
        (r.1, f :: r.2.1, r.2.2)

/-- `checkAllPolicies` over an already-found file list: run the loop
from an empty collection, then show the completion message only if the
token is still not cancelled. -/
def checkAllPolicies
    (backend : String → Except String (List PolicyViolation))
    (tok : Nat → Bool) (files : List String) : ScanResult :=
  let r := checkAllPoliciesLoop backend tok files 0 []
  { diags := r.1
    checked := r.2.1
    completed := r.2.1.length
    infoShown := ! tok r.2.2 }

/-! ### Derived notions used in the statements -/

/-- The concatenation of the content fields of a message sequence. -/
def contentOf : List StreamEvent → String
  | [] => ""
  | .content s :: rest => s ++ contentOf rest
  | _ :: rest => contentOf rest

/-- The action payloads of a message sequence, in arrival order. -/
def actionsOf : List StreamEvent → List Action
  | [] => []
  | .action a :: rest => a :: actionsOf rest
  | _ :: rest => actionsOf rest

/-- The callback invocations the reader makes on a message sequence,
given whether `onAction` was supplied. -/
def traceOf (b : Bool) : List StreamEvent → List CallbackCall
  | [] => []
  | .content s :: rest => .chunk s :: traceOf b rest
  | .action a :: rest => (if b then [.act a] else []) ++ traceOf b rest
  | _ :: rest => traceOf b rest

/-- Messages the reader silently ignores: data that is not valid JSON,
or valid JSON with an unrecognized `type` discriminator. -/
def isNoise : StreamEvent → Bool
  | .other _ => true
  | .invalid _ => true
  | _ => false

/-! ### Helper lemmas -/

theorem processEvents_append (b : Bool) (xs ys : List StreamEvent)
    (st : StreamState) :
    processEvents b st (xs ++ ys) =
      ((processEvents b (processEvents b st xs).1 ys).1,
       (processEvents b st xs).2 ++
         (processEvents b (processEvents b st xs).1 ys).2) := by
  induction xs generalizing st with
  | nil => simp [processEvents]
  | cons x xs ih => simp [processEvents, ih, List.append_assoc]

theorem processEvents_no_done (b : Bool) (evs : List StreamEvent)
    (fc : String) (acts : List Action)
    (hd : StreamEvent.done ∉ evs) :
    processEvents b
        { fullContent := fc, actions := acts, closed := false,
          result := none } evs =
      ({ fullContent := fc ++ contentOf evs
         actions := acts ++ (if b then actionsOf evs else [])
         closed := false
         result := none }, traceOf b evs) := by
  induction evs generalizing fc acts with
  | nil => simp [processEvents, contentOf, actionsOf, traceOf]
  | cons ev rest ih =>
      have hrest : StreamEvent.done ∉ rest :=
        fun h => hd (List.mem_cons_of_mem _ h)
      have ih2 := fun fc acts => ih fc acts hrest
      cases ev with
      | done => exact absurd (List.mem_cons_self _ _) hd
      | content s =>
          simp [processEvents, streamOnMessage, ih2, contentOf, actionsOf,
                traceOf, String.append_assoc]
      | action a =>
          cases b with
          | false =>
              simp [processEvents, streamOnMessage, ih2, actionsOf, traceOf,
                    contentOf]
          | true =>
              simp [processEvents, streamOnMessage, ih2, actionsOf, traceOf,
                    contentOf, List.append_assoc]
      | other t =>
          simp [processEvents, streamOnMessage, ih2, contentOf, actionsOf,
                traceOf]
      | invalid r =>
          simp [processEvents, streamOnMessage, ih2, contentOf, actionsOf,
                traceOf]

theorem isNoise_content (s : String) :
    isNoise (StreamEvent.content s) = false := rfl

theorem isNoise_action (a : Action) :
    isNoise (StreamEvent.action a) = false := rfl

theorem isNoise_done : isNoise StreamEvent.done = false := rfl

theorem isNoise_other (t : String) :
    isNoise (StreamEvent.other t) = true := rfl

theorem isNoise_invalid (r : String) :
    isNoise (StreamEvent.invalid r) = true := rfl

theorem streamOnMessage_other (b : Bool) (st : StreamState) (t : String) :
    streamOnMessage b st (StreamEvent.other t) = (st, []) := by
  simp [streamOnMessage]

theorem streamOnMessage_invalid (b : Bool) (st : StreamState) (r : String) :
    streamOnMessage b st (StreamEvent.invalid r) = (st, []) := by
  simp [streamOnMessage]

theorem processEvents_filter_noise (b : Bool) (evs : List StreamEvent)
    (st : StreamState) :
    processEvents b st (evs.filter (fun e => ! isNoise e)) =
      processEvents b st evs := by
  induction evs generalizing st with
  | nil => rfl
  | cons ev rest ih =>
      cases ev with
      | content s =>
          simp [List.filter_cons, isNoise_content, processEvents, ih]
      | action a =>
          simp [List.filter_cons, isNoise_action, processEvents, ih]
      | done =>
          simp [List.filter_cons, isNoise_done, processEvents, ih]
      | other t =>
          simp [List.filter_cons, isNoise_other, processEvents,
                streamOnMessage_other, ih]
      | invalid r =>
          simp [List.filter_cons, isNoise_invalid, processEvents,
                streamOnMessage_invalid, ih]

theorem getHeader_setHeader (hs : List (String × String)) (k v : String) :
    getHeader (setHeader hs k v) k = some v := by
  unfold setHeader getHeader
  by_cases h : hs.any (fun p => p.1 = k)
  · simp only [h, if_true]
    induction hs with
    | nil => simp at h
    | cons p rest ih =>
        by_cases hp : p.1 = k
        · simp [List.find?, hp]
        · have hrest : rest.any (fun p => decide (p.1 = k)) = true := by
            simpa [List.any_cons, hp] using h
          simpa [List.find?, hp] using ih hrest
  · simp only [h, if_false]
    induction hs with
    | nil => simp [List.find?]
    | cons p rest ih =>
        have hp : ¬ p.1 = k := by
          intro hk
          exact h (by simp [List.any_cons, hk])
        have hrest : ¬ rest.any (fun p => decide (p.1 = k)) = true := by
          intro hk
          exact h (by simp [List.any_cons, hk])
        simpa [List.find?, hp] using ih hrest

theorem initialStreamState_eq :
    initialStreamState =
      { fullContent := "", actions := [], closed := false,
        result := none } := rfl

theorem contentOf_map_content (cs : List String) :
    contentOf (cs.map StreamEvent.content) =
      cs.foldr (fun a acc => a ++ acc) "" := by
  induction cs with
  | nil => rfl
  | cons c cs ih => simp [contentOf, ih]

theorem actionsOf_map_content (cs : List String) :
    actionsOf (cs.map StreamEvent.content) = [] := by
  induction cs with
  | nil => rfl
  | cons c cs ih => simp [actionsOf, ih]

theorem traceOf_map_content (b : Bool) (cs : List String) :
    traceOf b (cs.map StreamEvent.content) =
      cs.map CallbackCall.chunk := by
  induction cs with
  | nil => rfl
  | cons c cs ih => simp [traceOf, ih]

/-! ### Claims -/

/-- C1: for every finite arrival sequence of content envelopes c1..cn
followed by a done envelope, the streaming promise resolves with
ChatResponse.content equal to the concatenation c1+c2+...+cn in arrival
order, and the onChunk callback is invoked exactly n times, once per
content envelope, with each ci in arrival order (whether or not an
onAction callback was supplied). -/
theorem stream_content_concatenation (b : Bool) (cs : List String) :
    processEvents b initialStreamState
        (cs.map StreamEvent.content ++ [StreamEvent.done]) =
      ({ fullContent := cs.foldr (fun a acc => a ++ acc) ""
         actions := []
         closed := true
         result := some (.ok
           { content := cs.foldr (fun a acc => a ++ acc) ""
             actions := [] }) },
       cs.map CallbackCall.chunk) := by
  have hd : StreamEvent.done ∉ cs.map StreamEvent.content := by simp
  rw [processEvents_append, initialStreamState_eq,
      processEvents_no_done b _ "" [] hd]
  simp [processEvents, streamOnMessage, contentOf_map_content,
        actionsOf_map_content, traceOf_map_content]

/-- C4 counterexample: with no onAction callback supplied, an action
envelope is dropped (the guard `data.type === 'action' && onAction`
falls through), so the resolved actions list is empty rather than the
list of actions received. -/
theorem stream_action_dropped_without_callback :
    (processEvents false initialStreamState
        [StreamEvent.action { payload := "a" }, StreamEvent.done]).1.result ≠
      some (.ok { content := ""
                  actions := [{ payload := "a" }] }) := by
  intro h
  simp [processEvents, streamOnMessage, initialStreamState] at h

/-- C4 amended: when an onAction callback is supplied, the resolved
ChatResponse.actions list contains exactly the actions of the action
envelopes received, preserving their relative arrival order; when no
onAction callback is supplied, action envelopes are dropped and the
resolved actions list is empty. -/
theorem stream_actions_order (b : Bool) (pre : List StreamEvent)
    (hd : StreamEvent.done ∉ pre) :
    (processEvents b initialStreamState
        (pre ++ [StreamEvent.done])).1.result =
      some (.ok { content := contentOf pre
                  actions := if b then actionsOf pre else [] }) := by
  rw [processEvents_append, initialStreamState_eq,
      processEvents_no_done b pre "" [] hd]
  simp [processEvents, streamOnMessage]

/-- Witness for `stream_actions_order`: an action envelope between two
content envelopes, with the callback supplied, lands in the resolved
actions list. -/
theorem stream_actions_order_witness :
    StreamEvent.done ∉
        [StreamEvent.content "x", StreamEvent.action { payload := "a" },
         StreamEvent.content "y"] ∧
    (processEvents true initialStreamState
        ([StreamEvent.content "x", StreamEvent.action { payload := "a" },
          StreamEvent.content "y"] ++ [StreamEvent.done])).1.result =
      some (.ok { content := "xy"
                  actions := [{ payload := "a" }] }) :=
  ⟨by decide, stream_actions_order true _ (by decide)⟩

/-- C6: if the stream connection reports a transport-level error before
any done envelope has been processed, the promise rejects with the fixed
message "Stream connection failed", the connection is closed, and no
ChatResponse is produced (the accumulated content is discarded: the
settlement is an error, not a response). -/
theorem stream_error_rejects_and_closes (b : Bool)
    (pre : List StreamEvent) (hd : StreamEvent.done ∉ pre) :
    (streamOnError (processEvents b initialStreamState pre).1).result =
        some (.error "Stream connection failed") ∧
    (streamOnError (processEvents b initialStreamState pre).1).closed =
        true := by
  rw [initialStreamState_eq, processEvents_no_done b pre "" [] hd]
  simp [streamOnError]

/-- Witness for `stream_error_rejects_and_closes`: a connection error
after one content chunk discards the partial content and rejects. -/
theorem stream_error_witness :
    StreamEvent.done ∉ [StreamEvent.content "partial"] ∧
    ((streamOnError (processEvents true initialStreamState
          [StreamEvent.content "partial"]).1).result =
        some (.error "Stream connection failed") ∧
     (streamOnError (processEvents true initialStreamState
          [StreamEvent.content "partial"]).1).closed = true) :=
  ⟨by decide, stream_error_rejects_and_closes true _ (by decide)⟩

/-- C7: envelopes that are not valid JSON or whose type discriminator is
none of content/action/done are silently ignored: removing all of them
from an arrival sequence leaves the reader's final state (hence the
resolved ChatResponse) and the entire onChunk/onAction invocation
sequence unchanged, and the stream is not aborted. -/
theorem stream_ignores_malformed (b : Bool) (evs : List StreamEvent) :
    processEvents b initialStreamState evs =
      processEvents b initialStreamState
        (evs.filter (fun e => ! isNoise e)) :=
  (processEvents_filter_noise b evs initialStreamState).symm

/-- C2: sendChatMessage dispatches to the streaming path exactly when
the held configuration's streaming flag is true and an onChunk callback
was supplied; in every other case the synchronous path issues exactly
one POST to /chat whose body is the request with stream: false merged
in, and resolves with the parsed response body unchanged. -/
theorem sendChatMessage_dispatch_and_sync
    (cfg : CodessaConfig) (onChunkSupplied : Bool)
    (backend : ChatRequest → Except String ChatResponse)
    (r : ChatRequest) :
    (sendChatMessageMode cfg onChunkSupplied = ChatMode.streaming ↔
        cfg.streamResponses = true ∧ onChunkSupplied = true) ∧
    (sendChatMessageSync backend r).1 =
        [{ r with stream := some false }] ∧
    (∀ resp, backend { r with stream := some false } = .ok resp →
        (sendChatMessageSync backend r).2 = .ok resp) := by
  refine ⟨?_, ?_, ?_⟩
  · cases h1 : cfg.streamResponses <;> cases h2 : onChunkSupplied <;>
      simp [sendChatMessageMode, h1, h2]
  · cases hb : backend { r with stream := some false } <;>
      simp [sendChatMessageSync, hb]
  · intro resp hres
    simp [sendChatMessageSync, hres]

/-- Witness for `sendChatMessage_dispatch_and_sync`: the spec's own
scenario — streaming disabled, backend answers with a fixed body, and
the call resolves to exactly that body. -/
theorem sendChatMessage_sync_roundtrip_witness :
    (sendChatMessageSync
        (fun _ => .ok { content := "Hello! How can I help?" })
        { message := "Hello, world!" }).2 =
      .ok { content := "Hello! How can I help?" } :=
  (sendChatMessage_dispatch_and_sync
      { apiEndpoint := "https://api.codessa.dev", apiKey := ""
        streamResponses := false }
      false (fun _ => .ok { content := "Hello! How can I help?" })
      { message := "Hello, world!" }).2.2
    { content := "Hello! How can I help?" } rfl

/-- C3: the onmessage handler invokes onAction and discards the returned
promise without awaiting it, so a content envelope whose arrival
precedes the completion of the action handler's asynchronous work is
processed (onChunk invoked) before that work completes: in the replay
below, chunkCall "x" appears strictly between actionStart 0 and
actionEnd 0, violating the claimed back-pressure. -/
theorem stream_action_handler_not_awaited :
    (runLoop initialLoopState
        [LoopTask.arrival (StreamEvent.action { payload := "edit" }),
         LoopTask.arrival (StreamEvent.content "x"),
         LoopTask.handlerDone 0,
         LoopTask.arrival StreamEvent.done]).2 =
      [TraceEvent.actionStart 0 { payload := "edit" },
       TraceEvent.chunkCall "x",
       TraceEvent.actionEnd 0,
       TraceEvent.resolved] := rfl

/-- C5 counterexample: when the initiate POST fails, the catch handler
rejects the promise with that failure but never invokes
eventSource.close() — the stream remains open (closed = false). -/
theorem stream_init_failure_leaves_stream_open :
    (streamOnInitFailure "Network Error" initialStreamState).result =
        some (.error "Network Error") ∧
    (streamOnInitFailure "Network Error" initialStreamState).closed =
        false :=
  ⟨rfl, rfl⟩

/-- C5 amended: if the one-shot initiate request fails while the promise
is still pending, the promise returned by sendChatMessage is rejected
with that failure, but the open stream connection is not closed by this
path — close runs only on a later done envelope or transport error. -/
theorem stream_init_failure_rejects_without_close (e : String)
    (st : StreamState) (h : st.result = none) :
    (streamOnInitFailure e st).result = some (.error e) ∧
    (streamOnInitFailure e st).closed = st.closed := by
  simp [streamOnInitFailure, h]

/-- Witness for `stream_init_failure_rejects_without_close`. -/
theorem stream_init_failure_witness :
    initialStreamState.result = none ∧
    ((streamOnInitFailure "Network Error" initialStreamState).result =
        some (.error "Network Error") ∧
     (streamOnInitFailure "Network Error" initialStreamState).closed =
        initialStreamState.closed) :=
  ⟨rfl, stream_init_failure_rejects_without_close "Network Error"
      initialStreamState rfl⟩

/-- C8 counterexample: after updateConfiguration runs with an empty
credential following a configured one, the Authorization entry of the
shared defaults is present with the empty-string value (some ""), not
absent (none): requests carry an empty-string Authorization header
rather than no header at all.  The stale token is indeed gone. -/
theorem auth_header_present_empty_after_clear :
    ((updateConfiguration { apiKey := some "" }
        (updateConfiguration { apiKey := some "secret" }
          (constructClient { apiKey := some "secret" }))).client.map
      (fun c => getHeader c.headers "Authorization")) = some (some "") ∧
    ((updateConfiguration { apiKey := some "" }
        (updateConfiguration { apiKey := some "secret" }
          (constructClient { apiKey := some "secret" }))).client.map
      (fun c => getHeader c.headers "Authorization")) ≠ some none := by
  constructor
  · rfl
  · intro h
    rw [show ((updateConfiguration { apiKey := some "" }
        (updateConfiguration { apiKey := some "secret" }
          (constructClient { apiKey := some "secret" }))).client.map
      (fun c => getHeader c.headers "Authorization")) = some (some "")
      from rfl] at h
    simp at h

/-- C8 amended: updateConfiguration always (re)assigns the Authorization
entry of the shared defaults: with an absent or empty credential it
becomes the empty string (no stale bearer token remains, but the entry
stays present with an empty value rather than being removed), and with
a configured credential it becomes Bearer followed by the credential;
the headers handed to the streaming EventSource follow the same
pattern. -/
theorem auth_header_replaced_on_update (s : WorkspaceSettings)
    (st : ClientState) (c : ClientDefaults) (h : st.client = some c) :
    ((updateConfiguration s st).client.map
        (fun d => getHeader d.headers "Authorization")) =
      some (some (if (readConfig s).apiKey = "" then ""
                  else "Bearer " ++ (readConfig s).apiKey)) ∧
    getHeader (streamHeaders (updateConfiguration s st).config)
        "Authorization" =
      some (if (readConfig s).apiKey = "" then ""
            else "Bearer " ++ (readConfig s).apiKey) := by
  constructor
  · simp [updateConfiguration, h, getHeader_setHeader]
  · simp [updateConfiguration, streamHeaders, getHeader, List.find?]

/-- Witness for `auth_header_replaced_on_update`: clearing the
credential leaves a present, empty-valued Authorization entry. -/
theorem auth_header_update_witness :
    (constructClient { apiKey := some "secret" }).client =
        some initialClient ∧
    (((updateConfiguration { apiKey := some "" }
          (constructClient { apiKey := some "secret" })).client.map
        (fun d => getHeader d.headers "Authorization")) =
          some (some "") ∧
     getHeader (streamHeaders (updateConfiguration { apiKey := some "" }
          (constructClient { apiKey := some "secret" })).config)
        "Authorization" = some "") :=
  ⟨rfl, auth_header_replaced_on_update { apiKey := some "" } _
      initialClient rfl⟩

/-- C10: immediately after the constructor, the shared client defaults
contain no base URL and no Authorization entry even though the held
config reflects the supplied settings (updateConfiguration ran before
axios.create, so its guarded branch was skipped); the endpoint and
credential reach the transport defaults only after a subsequent
updateConfiguration call. -/
theorem constructor_defaults_unconfigured (s : WorkspaceSettings) :
    (constructClient s).client = some initialClient ∧
    initialClient.baseURL = none ∧
    getHeader initialClient.headers "Authorization" = none ∧
    (constructClient s).config = readConfig s ∧
    ((updateConfiguration s (constructClient s)).client.map
        (fun c => (c.baseURL, getHeader c.headers "Authorization"))) =
      some (some (readConfig s).apiEndpoint,
            some (if (readConfig s).apiKey = "" then ""
                  else "Bearer " ++ (readConfig s).apiKey)) := by
  refine ⟨rfl, rfl, by decide, rfl, ?_⟩
  simp [constructClient, updateConfiguration, getHeader_setHeader]

theorem checkAllPoliciesLoop_cancel
    (backend : String → Except String (List PolicyViolation))
    (tok : Nat → Bool) (fs : List String) :
    ∀ (i : Nat) (ds : List (String × List Diagnostic)) (m : Nat),
      m ≤ fs.length →
      (∀ j, j < m → tok (i + j) = false) →
      tok (i + m) = true →
      checkAllPoliciesLoop backend tok fs i ds =
        ((fs.take m).foldl (checkDocumentPolicies backend) ds,
         (fs.take m, i + m)) := by
  induction fs with
  | nil =>
      intro i ds m hm hbef hat
      have hm0 : m = 0 := Nat.le_zero.mp hm
      subst hm0
      simp [checkAllPoliciesLoop]
  | cons f rest ih =>
      intro i ds m hm hbef hat
      cases m with
      | zero =>
          have hat0 : tok i = true := by simpa using hat
          simp [checkAllPoliciesLoop, hat0]
      | succ m =>
          have h0 : tok i = false := by
            simpa using hbef 0 (Nat.succ_pos m)
          have hstep : ∀ j, j < m → tok (i + 1 + j) = false := by
            intro j hj
            have hgoal := hbef (j + 1) (Nat.succ_lt_succ hj)
            have harg : i + (j + 1) = i + 1 + j := by omega
            rw [harg] at hgoal
            exact hgoal
          have hat1 : tok (i + 1 + m) = true := by
            have harg : i + (m + 1) = i + 1 + m := by omega
            rw [harg] at hat
            exact hat
          have hm1 : m ≤ rest.length := by
            simp [List.length_cons] at hm
            omega
          have hrec := ih (i + 1) (checkDocumentPolicies backend ds f) m
            hm1 hstep hat1
          have harg : i + 1 + m = i + (m + 1) := by omega
          simp [checkAllPoliciesLoop, h0, hrec, List.take_succ_cons,
                harg]

/-- C9: if the cancellation signal is requested after k files have been
processed, the bulk scan issues per-file checks for exactly the first k
files, returns with the diagnostics those k checks produced, reports
completed = k, and suppresses the completion notification; the
operation returns normally, so the progress UI is not left running. -/
theorem checkAllPolicies_cancellation
    (backend : String → Except String (List PolicyViolation))
    (tok : Nat → Bool) (files : List String) (k : Nat)
    (hk : k ≤ files.length)
    (hbefore : ∀ i, i < k → tok i = false) (hat : tok k = true) :
    (checkAllPolicies backend tok files).checked = files.take k ∧
    (checkAllPolicies backend tok files).completed = k ∧
    (checkAllPolicies backend tok files).diags =
      (files.take k).foldl (checkDocumentPolicies backend) [] ∧
    (checkAllPolicies backend tok files).infoShown = false := by
  have h := checkAllPoliciesLoop_cancel backend tok files 0 [] k hk
    (by intro j hj; simpa using hbefore j hj)
    (by simpa using hat)
  simp [checkAllPolicies, h, hat, List.length_take, Nat.min_eq_left hk]

/-- Witness for `checkAllPolicies_cancellation`: two files, cancellation
requested after the first has been processed. -/
theorem checkAllPolicies_cancellation_witness :
    (1 ≤ (["a.ts", "b.ts"] : List String).length ∧
     (∀ i, i < 1 → (fun n => decide (1 ≤ n)) i = false) ∧
     (fun n => decide (1 ≤ n)) 1 = true) ∧
    ((checkAllPolicies (fun _ => .ok []) (fun n => decide (1 ≤ n))
        ["a.ts", "b.ts"]).checked = ["a.ts"] ∧
     (checkAllPolicies (fun _ => .ok []) (fun n => decide (1 ≤ n))
        ["a.ts", "b.ts"]).completed = 1 ∧
     (checkAllPolicies (fun _ => .ok []) (fun n => decide (1 ≤ n))
        ["a.ts", "b.ts"]).diags = [("a.ts", [])] ∧
     (checkAllPolicies (fun _ => .ok []) (fun n => decide (1 ≤ n))
        ["a.ts", "b.ts"]).infoShown = false) :=
  ⟨⟨by decide,
    by intro i hi; have h0 : i = 0 := by omega
       subst h0; rfl,
    rfl⟩,
   checkAllPolicies_cancellation (fun _ => .ok [])
     (fun n => decide (1 ≤ n)) ["a.ts", "b.ts"] 1 (by decide)
     (by intro i hi; have h0 : i = 0 := by omega
         subst h0; rfl)
     rfl⟩

end EchoPilot
